import Mathlib

/-
  Verification of the aetherion-chat widget controller and demo backend.

  The embedding follows src/src/components/FuturisticChatWidget.tsx
  (the `handleSend`, `toggleChat` and input handlers) and the demo
  backend route handler (the unnamed Next.js route file).

  Modelling conventions:
  - Machine time (`Date.now()`, millisecond clock readings) is passed in
    explicitly: `now` is the clock reading taken when the user message is
    built, `now2` the reading taken when an assistant message is built.
  - The `fetch` call and the subsequent `response.json()` are modelled by
    a `FetchRes` environment value: the promise either rejects, or yields
    a response with a numeric status and a body that either parses to a
    JSON object (modelled with the optional string fields the code reads)
    or fails to parse.
  - The caller-supplied handler `onSendMessage` is opaque: the environment
    records only whether its promise resolves or rejects.
  - JavaScript truthiness on the optional string fields involved
    (`data.response`, `data.content`, `message`) is `jsTruthy`: absent
    (undefined) and the empty string are falsy, every other string truthy.
  - JavaScript trim is modelled by `jsTrim`, a structural recursion that
    strips leading and trailing whitespace characters.
-/

namespace Aetherion

/-- The `'user' | 'assistant'` discriminator of the Message interface. -/
inductive MsgType
  | user
  | assistant
  deriving DecidableEq, Repr

/-- The Message interface: id, content, type, timestamp (timestamp as the
millisecond clock reading of `new Date()`). -/
structure Message where
  id : String
  content : String
  type : MsgType
  timestamp : Nat
  deriving DecidableEq, Repr

/-- The component state: `isOpen`, `messages`, `inputValue`, `isTyping`
(the four `useState` hooks). -/
structure WidgetState where
  isOpen : Bool
  messages : List Message
  inputValue : String
  isTyping : Bool
  deriving DecidableEq, Repr

/-- A parsed JSON response body, restricted to the fields the widget code
reads (`data.response`, `data.content`) plus the `error` field a backend
error body carries; each is an optional string. -/
structure ApiData where
  response : Option String
  content : Option String
  error : Option String
  deriving DecidableEq, Repr

/-- Outcome of `fetch` followed by `response.json()`: the fetch promise
rejects, or a response arrives with a status and a body that parses to
`some data` or fails to parse (`none`). -/
inductive FetchRes
  | reject
  | response (status : Nat) (body : Option ApiData)
  deriving DecidableEq, Repr

/-- The JSON request body `\x7b message: inputValue \x7d` sent by the widget. -/
structure RequestBody where
  message : String
  deriving DecidableEq, Repr

/-- The POST request the widget issues in the endpoint strategy. -/
structure HttpRequest where
  url : String
  headers : List (String × String)
  body : RequestBody
  deriving DecidableEq, Repr

/-- The props/config the send path consults: whether `onSendMessage` was
supplied, the `sampleMode` flag, `config.api.endpoint` and
`config.api.headers`. -/
structure SendConfig where
  hasHandler : Bool
  sampleMode : Bool
  endpoint : Option String
  headers : List (String × String)
  deriving DecidableEq, Repr

/-- Environment of one `handleSend` run: the two clock readings, whether
the custom handler resolves, the sample-pool random index
(`Math.floor(Math.random() * SAMPLE_RESPONSES.length)`), and the fetch
outcome. -/
structure SendEnv where
  now : Nat
  now2 : Nat
  handlerOk : Bool
  randomIdx : Fin 5
  fetchResult : FetchRes
  deriving DecidableEq, Repr

/-- The three reply strategies of the if-chain in `handleSend`. -/
inductive Strategy
  | handler
  | sample
  | http
  deriving DecidableEq, Repr

/-- Result of one `handleSend` run: the new state plus an observation
trace of the external effects (which strategy branch ran, the argument
passed to the custom handler, whether the 1500 ms sample delay ran, and
the HTTP request issued, if any). -/
structure SendResult where
  state : WidgetState
  strategyRun : Option Strategy
  handlerArg : Option String
  sampleDelayed : Bool
  httpRequest : Option HttpRequest
  deriving DecidableEq, Repr

/-- The SAMPLE_RESPONSES array of the widget source. -/
def SAMPLE_RESPONSES : List String :=
  [ "Hello! I\x27m here to help you with any questions you might have.",
    "## Documentation\nYou can find our documentation at [docs.example.com](https://docs.example.com).",
    "Here\x27s a code example:\n```js\nconst hello = () => \x7b\n  console.log(\x27Hello world\x27);\n\x7d;\n```",
    "# Features\n- Easy to use\n- Customizable\n- Great support\n\nHow can I assist you further?",
    "Let me check that for you. It looks like you\x27ll need to update your configuration settings." ]

/-- The fixed failure notice appended by the catch block. -/
def errorNoticeText : String :=
  "Sorry, there was an error processing your message."

/-- The user Message built at the top of `handleSend`:
id `Date.now().toString()`, content the raw input, timestamp `new Date()`. -/
def mkUserMessage (now : Nat) (text : String) : Message :=
  { id := toString now, content := text, type := MsgType.user, timestamp := now }

/-- An assistant Message as built inside `handleSend`:
id `(Date.now() + 1).toString()`, timestamp `new Date()`. -/
def mkAssistantMessage (now2 : Nat) (text : String) : Message :=
  { id := toString (now2 + 1), content := text, type := MsgType.assistant, timestamp := now2 }

/-- JavaScript WhiteSpace and LineTerminator code points recognised by
`String.prototype.trim` (tab, line feed, vertical tab, form feed,
carriage return, space, no-break space, BOM, line and paragraph
separators; the remaining Unicode space separators are omitted as they
play no role in the claims). -/
def isJsWhitespace (c : Char) : Bool :=
  c == ' ' || c == '\t' || c == '\n' || c == '\r' ||
  c == '\x0b' || c == '\x0c' || c == '\u00A0' || c == '\uFEFF' ||
  c == '\u2028' || c == '\u2029'

/-- Drop the leading whitespace of a character list. -/
def dropLeadingWs : List Char → List Char
  | [] => []
  | c :: cs => if isJsWhitespace c then dropLeadingWs cs else c :: cs

/-- JavaScript `String.prototype.trim`: strip leading and trailing
whitespace. -/
def jsTrim (s : String) : String :=
  String.mk ((dropLeadingWs (dropLeadingWs s.data).reverse).reverse)

/-- JavaScript truthiness of an optional string value: `undefined` and the
empty string are falsy. -/
def jsTruthy : Option String → Bool
  | none => false
  | some s => s != ""

/-- The content chain `data.response || data.content || "No response"`
of the endpoint strategy, on string-or-absent fields. -/
def chooseContent (data : ApiData) : String :=
  if jsTruthy data.response then data.response.getD ""
  else if jsTruthy data.content then data.content.getD ""
  else "No response"

/-- Header merge `\x7b Content-Type: application/json, ...config.api.headers \x7d`:
an association list in which later entries override earlier ones, as in a
JavaScript object spread. -/
def mergedHeaders (extra : List (String × String)) : List (String × String) :=
  ("Content-Type", "application/json") :: extra

/-- The POST request issued by the endpoint strategy: configured url,
merged headers, JSON body carrying the captured input text. -/
def widgetRequest (cfg : SendConfig) (url : String) (text : String) : HttpRequest :=
  { url := url, headers := mergedHeaders cfg.headers, body := { message := text } }

/-- The synchronous prefix of `handleSend` after the guard passes: append
the user message, clear the input, raise the typing flag. -/
def sendPhase1 (env : SendEnv) (s : WidgetState) : WidgetState :=
  { s with
    messages := s.messages ++ [mkUserMessage env.now s.inputValue],
    inputValue := "",
    isTyping := true }

/-- The try/catch/finally block of `handleSend`: runs the strategy
if-chain on the state left by `sendPhase1`, with `text` the captured
original `inputValue`. Failures (handler rejection, fetch rejection,
JSON parse failure) are absorbed into the fixed failure notice, and the
finally clause clears `isTyping` on every path. -/
def resolveReply (cfg : SendConfig) (env : SendEnv) (text : String) (s1 : WidgetState) : SendResult :=
  if cfg.hasHandler then
    if env.handlerOk then
      { state := { s1 with isTyping := false },
        strategyRun := some Strategy.handler, handlerArg := some text,
        sampleDelayed := false, httpRequest := none }
    else
      { state := { s1 with
          messages := s1.messages ++ [mkAssistantMessage env.now2 errorNoticeText],
          isTyping := false },
        strategyRun := some Strategy.handler, handlerArg := some text,
        sampleDelayed := false, httpRequest := none }
  else if cfg.sampleMode then
    { state := { s1 with
        messages := s1.messages ++
          [mkAssistantMessage env.now2 (SAMPLE_RESPONSES.getD env.randomIdx.val "")],
        isTyping := false },
      strategyRun := some Strategy.sample, handlerArg := none,
      sampleDelayed := true, httpRequest := none }
  else
    match cfg.endpoint with
    | some url =>
      match env.fetchResult with
      | FetchRes.reject =>
        { state := { s1 with
            messages := s1.messages ++ [mkAssistantMessage env.now2 errorNoticeText],
            isTyping := false },
          strategyRun := some Strategy.http, handlerArg := none,
          sampleDelayed := false, httpRequest := some (widgetRequest cfg url text) }
      | FetchRes.response _ none =>
        { state := { s1 with
            messages := s1.messages ++ [mkAssistantMessage env.now2 errorNoticeText],
            isTyping := false },
          strategyRun := some Strategy.http, handlerArg := none,
          sampleDelayed := false, httpRequest := some (widgetRequest cfg url text) }
      | FetchRes.response _ (some data) =>
        { state := { s1 with
            messages := s1.messages ++ [mkAssistantMessage env.now2 (chooseContent data)],
            isTyping := false },
          strategyRun := some Strategy.http, handlerArg := none,
          sampleDelayed := false, httpRequest := some (widgetRequest cfg url text) }
    | none =>
      { state := { s1 with isTyping := false },
        strategyRun := none, handlerArg := none,
        sampleDelayed := false, httpRequest := none }

/-- The full `handleSend`: the early-return guard on blank trimmed input,
then the synchronous phase, then reply resolution on the captured input. -/
def handleSend (cfg : SendConfig) (env : SendEnv) (s : WidgetState) : SendResult :=
  if jsTrim s.inputValue = "" then
    { state := s, strategyRun := none, handlerArg := none,
      sampleDelayed := false, httpRequest := none }
  else
    resolveReply cfg env s.inputValue (sendPhase1 env s)

/-- The `toggleChat` handler. -/
def toggleChat (s : WidgetState) : WidgetState :=
  { s with isOpen := !s.isOpen }

/-- The input onChange handler (`setInputValue(e.target.value)`). -/
def updateDraft (t : String) (s : WidgetState) : WidgetState :=
  { s with inputValue := t }

/-- The operations a mounted widget instance can perform. -/
inductive WidgetOp
  | toggle
  | setDraft (t : String)
  | send (cfg : SendConfig) (env : SendEnv)
  deriving Repr

/-- Apply one operation to the widget state. -/
def applyOp : WidgetOp → WidgetState → WidgetState
  | WidgetOp.toggle, s => toggleChat s
  | WidgetOp.setDraft t, s => updateDraft t s
  | WidgetOp.send cfg env, s => (handleSend cfg env s).state

/-- Run a sequence of operations from a starting state. -/
def runOps (ops : List WidgetOp) (s : WidgetState) : WidgetState :=
  ops.foldl (fun st op => applyOp op st) s

/-- The strategy the if-chain of `handleSend` selects from the config:
custom handler first, else sample mode, else the configured endpoint,
else none. -/
def chosenStrategy (cfg : SendConfig) : Option Strategy :=
  if cfg.hasHandler then some Strategy.handler
  else if cfg.sampleMode then some Strategy.sample
  else if cfg.endpoint.isSome then some Strategy.http
  else none

/-- The content chain as the spec words it, for comparison with
`chooseContent`: use the `response` field, falling back to the `content`
field, falling back to the literal "No response" only when neither field
is present. -/
def specContentChain (data : ApiData) : String :=
  match data.response with
  | some r => r
  | none =>
    match data.content with
    | some c => c
    | none => "No response"

/- Demo backend route handler (the unnamed Next.js route file). -/

/-- The four response templates of the backend `generateResponse`,
instantiated with the incoming message. -/
def backendTemplates (message : String) : List String :=
  [ "Thank you for your message: \"" ++ message ++ "\". I\x27m here to help!",
    "# Response to your query\n\nYou asked: \"" ++ message ++ "\"\n\nHere\x27s what I found:",
    "## Interesting question!\n\nRegarding \"" ++ message ++ "\", here are some key points:\n\n- Point 1\n- Point 2\n- Point 3",
    "Let me help you with \"" ++ message ++ "\"\n\n```js\n// Here\x27s a code example\nconst answer = \"This is a sample response\";\nconsole.log(answer);\n```" ]

/-- The backend `generateResponse`: pick one of the four templates by the
random index `Math.floor(Math.random() * responses.length)`. -/
def generateResponse (message : String) (idx : Fin 4) : String :=
  (backendTemplates message).getD idx.val ""

/-- Body of a backend response: either the error object
`\x7b error: ... \x7d` or the success object
`\x7b response: ..., timestamp: ... \x7d`. -/
inductive BackendBody
  | errorBody (error : String)
  | successBody (response : String) (timestamp : String)
  deriving DecidableEq, Repr

/-- A backend HTTP response: status plus JSON body. -/
structure BackendResponse where
  status : Nat
  body : BackendBody
  deriving DecidableEq, Repr

/-- Outcome of `request.json()` plus the destructuring of `message` in
the backend: either a parsed body whose `message` field is an optional
string, or a thrown parse failure. -/
inductive ParsedRequest
  | parsed (message : Option String)
  | parseFailure
  deriving DecidableEq, Repr

/-- The backend POST handler: on a parse failure the catch block returns
500; on a falsy `message` (absent or empty) it returns 400; otherwise it
returns the generated response together with `new Date().toISOString()`,
passed in here as `isoNow`. `NextResponse.json` without a status option
responds with status 200. -/
def backendPOST (req : ParsedRequest) (idx : Fin 4) (isoNow : String) : BackendResponse :=
  match req with
  | ParsedRequest.parseFailure =>
    { status := 500, body := BackendBody.errorBody "Failed to process request" }
  | ParsedRequest.parsed msg =>
    if jsTruthy msg then
      { status := 200,
        body := BackendBody.successBody (generateResponse (msg.getD "") idx) isoNow }
    else
      { status := 400, body := BackendBody.errorBody "Message is required" }

/- Helper lemmas shared by the claim theorems. -/

/-- Reply resolution only ever appends messages to the log, and every
message it appends is an assistant message. -/
theorem resolveReply_messages (cfg : SendConfig) (env : SendEnv) (text : String)
    (s1 : WidgetState) :
    ∃ tail, (resolveReply cfg env text s1).state.messages = s1.messages ++ tail ∧
      ∀ m ∈ tail, m.type = MsgType.assistant := by
  unfold resolveReply
  split
  · split
    · exact ⟨[], by simp, by simp⟩
    · exact ⟨[mkAssistantMessage env.now2 errorNoticeText], rfl, by simp [mkAssistantMessage]⟩
  · split
    · exact ⟨[mkAssistantMessage env.now2 (SAMPLE_RESPONSES.getD env.randomIdx.val "")], rfl,
        by simp [mkAssistantMessage]⟩
    · split
      · split
        · exact ⟨[mkAssistantMessage env.now2 errorNoticeText], rfl, by simp [mkAssistantMessage]⟩
        · exact ⟨[mkAssistantMessage env.now2 errorNoticeText], rfl, by simp [mkAssistantMessage]⟩
        · rename_i data heq
          exact ⟨[mkAssistantMessage env.now2 (chooseContent data)], rfl,
            by simp [mkAssistantMessage]⟩
      · exact ⟨[], by simp, by simp⟩

/-- The finally clause: reply resolution always ends with the typing flag
cleared. -/
theorem resolveReply_isTyping (cfg : SendConfig) (env : SendEnv) (text : String)
    (s1 : WidgetState) :
    (resolveReply cfg env text s1).state.isTyping = false := by
  unfold resolveReply
  split
  · split <;> rfl
  · split
    · rfl
    · split
      · split <;> rfl
      · rfl

/-- Past the guard, `handleSend` is the synchronous phase followed by
reply resolution on the captured input. -/
theorem handleSend_eq_resolve (cfg : SendConfig) (env : SendEnv) (s : WidgetState)
    (h : jsTrim s.inputValue ≠ "") :
    handleSend cfg env s = resolveReply cfg env s.inputValue (sendPhase1 env s) := by
  unfold handleSend
  rw [if_neg h]

/- Concrete fixtures used by the witness theorems. -/

/-- A config with only the HTTP endpoint strategy configured. -/
def cfgHttp : SendConfig :=
  { hasHandler := false, sampleMode := false, endpoint := some "/api/chat",
    headers := [("X-Client-ID", "chat-widget-v1")] }

/-- A config with no strategy configured at all. -/
def cfgNone : SendConfig :=
  { hasHandler := false, sampleMode := false, endpoint := none, headers := [] }

/-- An environment in which the fetch yields 200 with body
`\x7b response: "hi" \x7d`. -/
def envOk : SendEnv :=
  { now := 100, now2 := 200, handlerOk := true, randomIdx := 2,
    fetchResult := FetchRes.response 200 (some { response := some "hi", content := none, error := none }) }

/-- A state holding the draft `" hi "` (non-blank after trimming, with
surrounding whitespace). -/
def sDraft : WidgetState :=
  { isOpen := true, messages := [], inputValue := " hi ", isTyping := false }

/-- A state whose draft is whitespace only. -/
def sBlank : WidgetState :=
  { isOpen := true, messages := [mkUserMessage 5 "earlier"], inputValue := "  ",
    isTyping := false }

/-- Claim C1: for every send() invocation where the trimmed draft input is
non-empty, exactly one user message whose content is the draft text is
appended to the message log, the draft input is cleared, and isPending is
set to true, all before any reply-resolution strategy resolves or any
assistant message is appended (the final log extends the phase-1 log only
by assistant messages). -/
theorem send_appends_user_before_reply (cfg : SendConfig) (env : SendEnv) (s : WidgetState)
    (h : jsTrim s.inputValue ≠ "") :
    (sendPhase1 env s).messages = s.messages ++ [mkUserMessage env.now s.inputValue] ∧
    (mkUserMessage env.now s.inputValue).content = s.inputValue ∧
    (mkUserMessage env.now s.inputValue).type = MsgType.user ∧
    (sendPhase1 env s).inputValue = "" ∧
    (sendPhase1 env s).isTyping = true ∧
    handleSend cfg env s = resolveReply cfg env s.inputValue (sendPhase1 env s) ∧
    ∃ tail, (handleSend cfg env s).state.messages =
        (s.messages ++ [mkUserMessage env.now s.inputValue]) ++ tail ∧
      ∀ m ∈ tail, m.type = MsgType.assistant := by
  refine ⟨rfl, rfl, rfl, rfl, rfl, handleSend_eq_resolve cfg env s h, ?_⟩
  rw [handleSend_eq_resolve cfg env s h]
  simpa [sendPhase1] using resolveReply_messages cfg env s.inputValue (sendPhase1 env s)

/-- Witness for C1 at a concrete configured send. -/
theorem send_appends_user_before_reply_witness :
    jsTrim sDraft.inputValue ≠ "" ∧
    ((sendPhase1 envOk sDraft).messages = sDraft.messages ++ [mkUserMessage envOk.now sDraft.inputValue] ∧
    (mkUserMessage envOk.now sDraft.inputValue).content = sDraft.inputValue ∧
    (mkUserMessage envOk.now sDraft.inputValue).type = MsgType.user ∧
    (sendPhase1 envOk sDraft).inputValue = "" ∧
    (sendPhase1 envOk sDraft).isTyping = true ∧
    handleSend cfgHttp envOk sDraft = resolveReply cfgHttp envOk sDraft.inputValue (sendPhase1 envOk sDraft) ∧
    ∃ tail, (handleSend cfgHttp envOk sDraft).state.messages =
        (sDraft.messages ++ [mkUserMessage envOk.now sDraft.inputValue]) ++ tail ∧
      ∀ m ∈ tail, m.type = MsgType.assistant) :=
  ⟨by decide, send_appends_user_before_reply cfgHttp envOk sDraft (by decide)⟩

/-- Claim C2: for every send() invocation where the draft input is empty
or whitespace-only, send() is a no-op: the state (message log, draft,
isPending) is unchanged and no reply strategy is invoked — no handler
call, no sample delay, no HTTP request. -/
theorem send_noop_on_blank_input (cfg : SendConfig) (env : SendEnv) (s : WidgetState)
    (h : jsTrim s.inputValue = "") :
    handleSend cfg env s =
      { state := s, strategyRun := none, handlerArg := none,
        sampleDelayed := false, httpRequest := none } := by
  unfold handleSend
  rw [if_pos h]

/-- Witness for C2 at a whitespace-only draft. -/
theorem send_noop_on_blank_input_witness :
    jsTrim sBlank.inputValue = "" ∧
    handleSend cfgHttp envOk sBlank =
      { state := sBlank, strategyRun := none, handlerArg := none,
        sampleDelayed := false, httpRequest := none } :=
  ⟨by decide, send_noop_on_blank_input cfgHttp envOk sBlank (by decide)⟩

/-- Claim C3: for every send() with non-empty trimmed input, at most one
reply strategy executes, selected by priority (custom handler, else
sample mode, else HTTP endpoint); when none is configured, only the user
message is appended, no reply is appended, and isPending is false when
send() completes. -/
theorem send_strategy_priority (cfg : SendConfig) (env : SendEnv) (s : WidgetState)
    (h : jsTrim s.inputValue ≠ "") :
    (handleSend cfg env s).strategyRun = chosenStrategy cfg ∧
    ((handleSend cfg env s).handlerArg.isSome = true →
      (handleSend cfg env s).sampleDelayed = false ∧
      (handleSend cfg env s).httpRequest = none) ∧
    ((handleSend cfg env s).sampleDelayed = true →
      (handleSend cfg env s).handlerArg = none ∧
      (handleSend cfg env s).httpRequest = none) ∧
    ((handleSend cfg env s).httpRequest.isSome = true →
      (handleSend cfg env s).handlerArg = none ∧
      (handleSend cfg env s).sampleDelayed = false) ∧
    (chosenStrategy cfg = none →
      (handleSend cfg env s).state.messages =
        s.messages ++ [mkUserMessage env.now s.inputValue] ∧
      (handleSend cfg env s).state.isTyping = false) := by
  rw [handleSend_eq_resolve cfg env s h]
  rcases cfg with ⟨hh, sm, ep, hd⟩
  rcases env with ⟨n1, n2, hok, ridx, fr⟩
  cases hh <;> cases sm <;> cases hok <;> rcases ep with _ | u <;>
    rcases fr with _ | ⟨st, (_ | d)⟩ <;>
    simp [resolveReply, chosenStrategy, sendPhase1]

/-- Witness for C3 with no strategy configured. -/
theorem send_strategy_priority_witness :
    jsTrim sDraft.inputValue ≠ "" ∧
    ((handleSend cfgNone envOk sDraft).strategyRun = chosenStrategy cfgNone ∧
    ((handleSend cfgNone envOk sDraft).handlerArg.isSome = true →
      (handleSend cfgNone envOk sDraft).sampleDelayed = false ∧
      (handleSend cfgNone envOk sDraft).httpRequest = none) ∧
    ((handleSend cfgNone envOk sDraft).sampleDelayed = true →
      (handleSend cfgNone envOk sDraft).handlerArg = none ∧
      (handleSend cfgNone envOk sDraft).httpRequest = none) ∧
    ((handleSend cfgNone envOk sDraft).httpRequest.isSome = true →
      (handleSend cfgNone envOk sDraft).handlerArg = none ∧
      (handleSend cfgNone envOk sDraft).sampleDelayed = false) ∧
    (chosenStrategy cfgNone = none →
      (handleSend cfgNone envOk sDraft).state.messages =
        sDraft.messages ++ [mkUserMessage envOk.now sDraft.inputValue] ∧
      (handleSend cfgNone envOk sDraft).state.isTyping = false)) :=
  ⟨by decide, send_strategy_priority cfgNone envOk sDraft (by decide)⟩

/-- Claim C5: for every send() whose chosen strategy fails (handler
rejection, fetch rejection, or JSON decode failure), exactly one
assistant message with the fixed failure notice is appended after the
user message, nothing is re-thrown (the embedding is a total function
returning a result, never an error), and isPending is cleared to false —
as it is on every completed send, regardless of outcome. -/
theorem send_failure_appends_notice (cfg : SendConfig) (env : SendEnv) (s : WidgetState)
    (h : jsTrim s.inputValue ≠ "")
    (hf : (cfg.hasHandler = true ∧ env.handlerOk = false) ∨
          (cfg.hasHandler = false ∧ cfg.sampleMode = false ∧
            cfg.endpoint.isSome = true ∧
            (env.fetchResult = FetchRes.reject ∨
              ∃ st, env.fetchResult = FetchRes.response st none))) :
    (handleSend cfg env s).state.messages =
      s.messages ++ [mkUserMessage env.now s.inputValue,
        mkAssistantMessage env.now2 errorNoticeText] ∧
    (handleSend cfg env s).state.isTyping = false ∧
    ∀ cfg2 env2, (handleSend cfg2 env2 s).state.isTyping = false := by
  have hT : ∀ cfg2 env2, (handleSend cfg2 env2 s).state.isTyping = false := by
    intro cfg2 env2
    rw [handleSend_eq_resolve cfg2 env2 s h]
    exact resolveReply_isTyping cfg2 env2 s.inputValue (sendPhase1 env2 s)
  refine ⟨?_, hT cfg env, hT⟩
  rw [handleSend_eq_resolve cfg env s h]
  rcases hf with ⟨h1, h2⟩ | ⟨h1, h2, h3, h4⟩
  · simp [resolveReply, h1, h2, sendPhase1]
  · obtain ⟨u, hu⟩ := Option.isSome_iff_exists.mp h3
    rcases h4 with h4 | ⟨st, h4⟩ <;>
      simp [resolveReply, h1, h2, hu, h4, sendPhase1]

/-- An environment in which the fetch promise rejects. -/
def envReject : SendEnv :=
  { now := 100, now2 := 200, handlerOk := true, randomIdx := 2,
    fetchResult := FetchRes.reject }

/-- Witness for C5 at a rejecting fetch. -/
theorem send_failure_appends_notice_witness :
    jsTrim sDraft.inputValue ≠ "" ∧
    ((handleSend cfgHttp envReject sDraft).state.messages =
      sDraft.messages ++ [mkUserMessage envReject.now sDraft.inputValue,
        mkAssistantMessage envReject.now2 errorNoticeText] ∧
    (handleSend cfgHttp envReject sDraft).state.isTyping = false ∧
    ∀ cfg2 env2, (handleSend cfg2 env2 sDraft).state.isTyping = false) :=
  ⟨by decide, send_failure_appends_notice cfgHttp envReject sDraft (by decide)
    (Or.inr ⟨rfl, rfl, rfl, Or.inl rfl⟩)⟩

/-- An environment whose fetch yields a body with an empty `response`
field next to a non-empty `content` field. -/
def envEmptyResp : SendEnv :=
  { now := 100, now2 := 200, handlerOk := true, randomIdx := 0,
    fetchResult := FetchRes.response 200
      (some { response := some "", content := some "x", error := none }) }

/-- Counterexample to claim C4 as stated: on the body
`\x7b response: "", content: "x" \x7d` the `response` field is present, so
the claimed chain (fall back only when the field is absent) yields `""`,
but the code evaluates `data.response || data.content || "No response"`
under JavaScript falsiness and appends `"x"`. -/
theorem http_content_chain_counterexample :
    (handleSend cfgHttp envEmptyResp sDraft).state.messages.getLast? =
      some (mkAssistantMessage 200 "x") ∧
    specContentChain { response := some "", content := some "x", error := none } = "" ∧
    (handleSend cfgHttp envEmptyResp sDraft).state.messages.getLast? ≠
      some (mkAssistantMessage 200
        (specContentChain { response := some "", content := some "x", error := none })) := by
  decide

/-- Claim C4 as amended: for every send() resolved via the HTTP strategy
whose response body decodes as JSON, the appended assistant message
content is `data.response` when that field is a non-empty string, else
`data.content` when that field is a non-empty string, else the literal
"No response" (JavaScript falsiness, not mere absence, drives the
fallback); in particular `\x7b response: "hi" \x7d` yields "hi" and
`\x7b\x7d` yields "No response". -/
theorem http_content_chain (cfg : SendConfig) (env : SendEnv) (s : WidgetState)
    (u : String) (st : Nat) (data : ApiData)
    (h : jsTrim s.inputValue ≠ "") (hh : cfg.hasHandler = false)
    (hs : cfg.sampleMode = false) (he : cfg.endpoint = some u)
    (hf : env.fetchResult = FetchRes.response st (some data)) :
    (handleSend cfg env s).state.messages =
      s.messages ++ [mkUserMessage env.now s.inputValue,
        mkAssistantMessage env.now2 (chooseContent data)] ∧
    (jsTruthy data.response = true → chooseContent data = data.response.getD "") ∧
    (jsTruthy data.response = false → jsTruthy data.content = true →
      chooseContent data = data.content.getD "") ∧
    (jsTruthy data.response = false → jsTruthy data.content = false →
      chooseContent data = "No response") ∧
    chooseContent { response := some "hi", content := none, error := none } = "hi" ∧
    chooseContent { response := none, content := none, error := none } = "No response" := by
  refine ⟨?_, ?_, ?_, ?_, by decide, by decide⟩
  · rw [handleSend_eq_resolve cfg env s h]
    simp [resolveReply, hh, hs, he, hf, sendPhase1]
  · intro ht
    simp [chooseContent, ht]
  · intro ht hc
    simp [chooseContent, ht, hc]
  · intro ht hc
    simp [chooseContent, ht, hc]

/-- Witness for the amended C4 at the mocked body `\x7b response: "hi" \x7d`. -/
theorem http_content_chain_witness :
    jsTrim sDraft.inputValue ≠ "" ∧ cfgHttp.hasHandler = false ∧
    cfgHttp.sampleMode = false ∧ cfgHttp.endpoint = some "/api/chat" ∧
    envOk.fetchResult = FetchRes.response 200
      (some { response := some "hi", content := none, error := none }) ∧
    ((handleSend cfgHttp envOk sDraft).state.messages =
      sDraft.messages ++ [mkUserMessage envOk.now sDraft.inputValue,
        mkAssistantMessage envOk.now2
          (chooseContent { response := some "hi", content := none, error := none })] ∧
    (jsTruthy ({ response := some "hi", content := none, error := none } : ApiData).response = true →
      chooseContent { response := some "hi", content := none, error := none } =
        ({ response := some "hi", content := none, error := none } : ApiData).response.getD "") ∧
    (jsTruthy ({ response := some "hi", content := none, error := none } : ApiData).response = false →
      jsTruthy ({ response := some "hi", content := none, error := none } : ApiData).content = true →
      chooseContent { response := some "hi", content := none, error := none } =
        ({ response := some "hi", content := none, error := none } : ApiData).content.getD "") ∧
    (jsTruthy ({ response := some "hi", content := none, error := none } : ApiData).response = false →
      jsTruthy ({ response := some "hi", content := none, error := none } : ApiData).content = false →
      chooseContent { response := some "hi", content := none, error := none } = "No response") ∧
    chooseContent { response := some "hi", content := none, error := none } = "hi" ∧
    chooseContent { response := none, content := none, error := none } = "No response") :=
  ⟨by decide, rfl, rfl, rfl, rfl,
    http_content_chain cfgHttp envOk sDraft "/api/chat" 200
      { response := some "hi", content := none, error := none }
      (by decide) rfl rfl rfl rfl⟩

/-- The HTTP request recorded by reply resolution is either absent or the
POST built from the configured endpoint and the captured text. -/
theorem resolveReply_httpRequest (cfg : SendConfig) (env : SendEnv) (text : String)
    (s1 : WidgetState) :
    (resolveReply cfg env text s1).httpRequest = none ∨
    ∃ u, cfg.endpoint = some u ∧
      (resolveReply cfg env text s1).httpRequest = some (widgetRequest cfg u text) := by
  unfold resolveReply
  split
  · split <;> exact Or.inl rfl
  · split
    · exact Or.inl rfl
    · split
      · rename_i u heq
        split <;> exact Or.inr ⟨u, heq, rfl⟩
      · exact Or.inl rfl

/-- The argument recorded for the custom handler is either absent or the
captured text. -/
theorem resolveReply_handlerArg (cfg : SendConfig) (env : SendEnv) (text : String)
    (s1 : WidgetState) :
    (resolveReply cfg env text s1).handlerArg = none ∨
    (resolveReply cfg env text s1).handlerArg = some text := by
  unfold resolveReply
  split
  · split <;> exact Or.inr rfl
  · split
    · exact Or.inl rfl
    · split
      · split <;> exact Or.inl rfl
      · exact Or.inl rfl

/-- Claim C6: for every operation of one mounted widget instance (toggle,
draft update, and every send path), the message log is append-only: the
prior log is a prefix of the new log, both for a single operation and
along any sequence of operations. -/
theorem log_append_only :
    (∀ op s, ∃ tail, (applyOp op s).messages = s.messages ++ tail) ∧
    (∀ ops s, ∃ tail, (runOps ops s).messages = s.messages ++ tail) := by
  have hop : ∀ op s, ∃ tail, (applyOp op s).messages = s.messages ++ tail := by
    intro op s
    cases op with
    | toggle => exact ⟨[], by simp [applyOp, toggleChat]⟩
    | setDraft t => exact ⟨[], by simp [applyOp, updateDraft]⟩
    | send cfg env =>
      by_cases h : jsTrim s.inputValue = ""
      · exact ⟨[], by simp [applyOp, handleSend, h]⟩
      · obtain ⟨tail, htail, _⟩ := resolveReply_messages cfg env s.inputValue (sendPhase1 env s)
        refine ⟨mkUserMessage env.now s.inputValue :: tail, ?_⟩
        have hs : applyOp (WidgetOp.send cfg env) s = (handleSend cfg env s).state := rfl
        rw [hs, handleSend_eq_resolve cfg env s h, htail]
        simp [sendPhase1]
  refine ⟨hop, ?_⟩
  intro ops
  induction ops with
  | nil => exact fun s => ⟨[], by simp [runOps]⟩
  | cons op rest ih =>
    intro s
    obtain ⟨t1, h1⟩ := hop op s
    obtain ⟨t2, h2⟩ := ih (applyOp op s)
    refine ⟨t1 ++ t2, ?_⟩
    have hr : runOps (op :: rest) s = runOps rest (applyOp op s) := rfl
    rw [hr, h2, h1, List.append_assoc]

/-- An environment whose clock readings are all `t` (the same millisecond)
and with no reply to resolve. -/
def envClock (t : Nat) : SendEnv :=
  { now := t, now2 := t, handlerOk := true, randomIdx := 0,
    fetchResult := FetchRes.reject }

/-- An initial state with draft "a" and an empty log. -/
def sInitA : WidgetState :=
  { isOpen := false, messages := [], inputValue := "a", isTyping := false }

/-- Claim C7 fails on the code: ids come from the millisecond clock
(`Date.now().toString()`), so two send() calls falling in the same
millisecond produce two user messages with the same id "1000" — the log
of this concrete run is not duplicate-free. -/
theorem duplicate_ids_same_millisecond :
    (runOps [WidgetOp.send cfgNone (envClock 1000), WidgetOp.setDraft "b",
        WidgetOp.send cfgNone (envClock 1000)] sInitA).messages.map Message.id =
      ["1000", "1000"] ∧
    ¬ ((runOps [WidgetOp.send cfgNone (envClock 1000), WidgetOp.setDraft "b",
        WidgetOp.send cfgNone (envClock 1000)] sInitA).messages.map Message.id).Nodup := by
  decide

/-- Claim C8: the demo backend POST returns 400 with
`\x7b error: "Message is required" \x7d` when the body lacks a `message`
field, a success object carrying the generated `response` string and the
`toISOString()` timestamp otherwise, and 500 with
`\x7b error: "Failed to process request" \x7d` on an internal (parse)
failure. -/
theorem backend_post_contract :
    (∀ (idx : Fin 4) (isoNow : String),
      backendPOST (ParsedRequest.parsed none) idx isoNow =
        { status := 400, body := BackendBody.errorBody "Message is required" }) ∧
    (∀ (m : String) (idx : Fin 4) (isoNow : String), jsTruthy (some m) = true →
      backendPOST (ParsedRequest.parsed (some m)) idx isoNow =
        { status := 200,
          body := BackendBody.successBody (generateResponse m idx) isoNow }) ∧
    (∀ (idx : Fin 4) (isoNow : String),
      backendPOST ParsedRequest.parseFailure idx isoNow =
        { status := 500, body := BackendBody.errorBody "Failed to process request" }) := by
  refine ⟨fun idx isoNow => rfl, ?_, fun idx isoNow => rfl⟩
  intro m idx isoNow hm
  simp [backendPOST, hm]

/-- Witness for C8 at a concrete message, index and timestamp. -/
theorem backend_post_contract_witness :
    jsTruthy (some "yo") = true ∧
    backendPOST (ParsedRequest.parsed (some "yo")) 0 "2026-10-11T00:00:00.000Z" =
      { status := 200,
        body := BackendBody.successBody (generateResponse "yo" 0)
          "2026-10-11T00:00:00.000Z" } :=
  ⟨by decide, backend_post_contract.2.1 "yo" 0 "2026-10-11T00:00:00.000Z" (by decide)⟩

/-- Claim C9: the HTTP strategy never inspects the response status: two
responses differing only in status produce identical send results; every
body that parses as JSON goes through the response/content/"No response"
chain (an error body yields "No response"), and the failure notice is
appended exactly when the fetch rejects or the body fails to parse. -/
theorem http_ignores_status (cfg : SendConfig) (env : SendEnv) (s : WidgetState) (u : String)
    (h : jsTrim s.inputValue ≠ "") (hh : cfg.hasHandler = false)
    (hs : cfg.sampleMode = false) (he : cfg.endpoint = some u) :
    (∀ st st' b, handleSend cfg { env with fetchResult := FetchRes.response st b } s =
        handleSend cfg { env with fetchResult := FetchRes.response st' b } s) ∧
    (∀ st data, env.fetchResult = FetchRes.response st (some data) →
      (handleSend cfg env s).state.messages =
        s.messages ++ [mkUserMessage env.now s.inputValue,
          mkAssistantMessage env.now2 (chooseContent data)]) ∧
    chooseContent { response := none, content := none, error := some "boom" } = "No response" ∧
    ((env.fetchResult = FetchRes.reject ∨
        ∃ st, env.fetchResult = FetchRes.response st none) →
      (handleSend cfg env s).state.messages =
        s.messages ++ [mkUserMessage env.now s.inputValue,
          mkAssistantMessage env.now2 errorNoticeText]) := by
  refine ⟨?_, ?_, by decide, ?_⟩
  · intro st st' b
    rw [handleSend_eq_resolve _ _ _ h, handleSend_eq_resolve _ _ _ h]
    rcases b with _ | d <;> simp [resolveReply, hh, hs, he, sendPhase1]
  · intro st data hf
    rw [handleSend_eq_resolve _ _ _ h]
    simp [resolveReply, hh, hs, he, hf, sendPhase1]
  · intro hf
    rw [handleSend_eq_resolve _ _ _ h]
    rcases hf with hf | ⟨st, hf⟩ <;> simp [resolveReply, hh, hs, he, hf, sendPhase1]

/-- Witness for C9 at the configured endpoint and a parsed body. -/
theorem http_ignores_status_witness :
    jsTrim sDraft.inputValue ≠ "" ∧ cfgHttp.hasHandler = false ∧
    cfgHttp.sampleMode = false ∧ cfgHttp.endpoint = some "/api/chat" ∧
    ((∀ st st' b, handleSend cfgHttp { envOk with fetchResult := FetchRes.response st b } sDraft =
        handleSend cfgHttp { envOk with fetchResult := FetchRes.response st' b } sDraft) ∧
    (∀ st data, envOk.fetchResult = FetchRes.response st (some data) →
      (handleSend cfgHttp envOk sDraft).state.messages =
        sDraft.messages ++ [mkUserMessage envOk.now sDraft.inputValue,
          mkAssistantMessage envOk.now2 (chooseContent data)]) ∧
    chooseContent { response := none, content := none, error := some "boom" } = "No response" ∧
    ((envOk.fetchResult = FetchRes.reject ∨
        ∃ st, envOk.fetchResult = FetchRes.response st none) →
      (handleSend cfgHttp envOk sDraft).state.messages =
        sDraft.messages ++ [mkUserMessage envOk.now sDraft.inputValue,
          mkAssistantMessage envOk.now2 errorNoticeText])) :=
  ⟨by decide, rfl, rfl, rfl,
    http_ignores_status cfgHttp envOk sDraft "/api/chat" (by decide) rfl rfl rfl⟩

/-- Claim C10: for every send() with non-empty trimmed input, the text
stored in the appended user message, sent in the HTTP request body, and
passed to the custom handler is the raw untrimmed draft input; trimming
is applied only in the emptiness guard. -/
theorem raw_input_preserved (cfg : SendConfig) (env : SendEnv) (s : WidgetState)
    (h : jsTrim s.inputValue ≠ "") :
    (∃ tail, (handleSend cfg env s).state.messages =
      s.messages ++ mkUserMessage env.now s.inputValue :: tail) ∧
    (mkUserMessage env.now s.inputValue).content = s.inputValue ∧
    (∀ req, (handleSend cfg env s).httpRequest = some req →
      req.body.message = s.inputValue) ∧
    (∀ a, (handleSend cfg env s).handlerArg = some a → a = s.inputValue) := by
  refine ⟨?_, rfl, ?_, ?_⟩
  · obtain ⟨tail, htail, _⟩ := resolveReply_messages cfg env s.inputValue (sendPhase1 env s)
    refine ⟨tail, ?_⟩
    rw [handleSend_eq_resolve _ _ _ h, htail]
    simp [sendPhase1]
  · intro req hreq
    rw [handleSend_eq_resolve _ _ _ h] at hreq
    rcases resolveReply_httpRequest cfg env s.inputValue (sendPhase1 env s) with hn | ⟨u, _, hsome⟩
    · rw [hn] at hreq
      exact absurd hreq (by simp)
    · rw [hsome] at hreq
      obtain rfl : req = widgetRequest cfg u s.inputValue := (Option.some.inj hreq).symm
      rfl
  · intro a ha
    rw [handleSend_eq_resolve _ _ _ h] at ha
    rcases resolveReply_handlerArg cfg env s.inputValue (sendPhase1 env s) with hn | hsome
    · rw [hn] at ha
      exact absurd ha (by simp)
    · rw [hsome] at ha
      exact (Option.some.inj ha).symm

/-- Witness for C10 at the draft `" hi "`: the surrounding whitespace
reaches both the user message and the HTTP request body. -/
theorem raw_input_preserved_witness :
    jsTrim sDraft.inputValue ≠ "" ∧
    ((∃ tail, (handleSend cfgHttp envOk sDraft).state.messages =
      sDraft.messages ++ mkUserMessage envOk.now sDraft.inputValue :: tail) ∧
    (mkUserMessage envOk.now sDraft.inputValue).content = sDraft.inputValue ∧
    (∀ req, (handleSend cfgHttp envOk sDraft).httpRequest = some req →
      req.body.message = sDraft.inputValue) ∧
    (∀ a, (handleSend cfgHttp envOk sDraft).handlerArg = some a → a = sDraft.inputValue)) :=
  ⟨by decide, raw_input_preserved cfgHttp envOk sDraft (by decide)⟩

end Aetherion
